import Mathlib

/-!
Verification of the client-side OAuth PKCE flow of pure-app.

The browser session store (sessionStorage) is modelled as an association
list from keys to values; getItem, setItem and removeItem mirror the
Storage API as the pages use it.  The callback handler
(src/routes/auth/callback/+page.svelte), the home page mount and login
(home page), and the logout helpers of the home, repos, dashboard and
callback pages are embedded as pure functions over this store, with the
network (token endpoint, user endpoint) passed in as oracle functions.
-/

abbrev Store := List (String × String)

/-- sessionStorage.getItem: the value stored under a key, or none. -/
def getItem : Store → String → Option String
  | [], _ => none
  | (k0, v) :: rest, k => if k0 = k then some v else getItem rest k

/-- sessionStorage.removeItem: drop every entry under a key. -/
def removeItem : Store → String → Store
  | [], _ => []
  | (k0, v) :: rest, k =>
      if k0 = k then removeItem rest k else (k0, v) :: removeItem rest k

/-- sessionStorage.setItem: overwrite the value stored under a key. -/
def setItem (s : Store) (k v : String) : Store :=
  (k, v) :: removeItem s k

/-- JavaScript falsiness of a nullable string, as in checks like
if (!code): true for null and for the empty string. -/
abbrev strFalsy (o : Option String) : Prop := o.getD "" = ""

/-- Outcome of the token-exchange request (the arctic
validateAuthorizationCode call), as seen by the callback handler:
either a token pair or a thrown provider error. -/
inductive TokenResponse where
  | success (accessToken : String) (refreshToken : Option String)
  | error (message : String)
  deriving DecidableEq, Repr

/-- Outcome of the GET user request with the fresh bearer token:
an ok JSON profile, or a non-ok HTTP response. -/
inductive UserResponse where
  | ok (username : String)
  | httpError
  deriving DecidableEq, Repr

/-- The failure taxonomy of the callback handler, one constructor per
distinct thrown error message of the onMount body. -/
inductive FailReason where
  | MissingParameter
  | StateMismatch
  | MissingVerifier
  | TokenExchangeError (providerMessage : String)
  | IdentityFetchError
  deriving DecidableEq, Repr

inductive CallbackResult where
  | Committed (username : String)
  | Failed (r : FailReason)
  deriving DecidableEq, Repr

/-- What one run of the callback onMount leaves behind: the terminal
result, the final session store, and whether a token-exchange request
was issued during the run. -/
structure RunOutcome where
  result : CallbackResult
  store : Store
  exchangeAttempted : Bool
  deriving DecidableEq, Repr

/-- The conditional refresh-token write of the callback commit:
const refreshToken = tokens.refreshToken(); if (refreshToken) setItem. -/
def commitRefresh (s : Store) : Option String → Store
  | some r => if r = "" then s else setItem s "gitlab_refresh_token" r
  | none => s

/-- One run of the callback onMount body
(src/routes/auth/callback/+page.svelte, lines 33 to 187), with the two
network calls abstracted as oracles ex (token endpoint, applied to the
code and the verifier) and fu (GET user, applied to the bearer token).
The debug-only blocks (JWT decode attempt and the token-info fetch in
its own try/catch) touch no store key and decide nothing, so they are
omitted.  Every thrown error lands in the outer catch, which only sets
display strings, so a throw terminates the run with the store as it
was at the throw site. -/
def callbackRun (ex : String → String → TokenResponse)
    (fu : String → UserResponse)
    (code stateParam : Option String) (s0 : Store) : RunOutcome :=
  if strFalsy code ∨ strFalsy stateParam then
    ⟨.Failed .MissingParameter, s0, false⟩
  else if strFalsy (getItem s0 "oauth_state") ∨
      some (stateParam.getD "") ≠ getItem s0 "oauth_state" then
    ⟨.Failed .StateMismatch, s0, false⟩
  else if strFalsy (getItem s0 "code_verifier") then
    ⟨.Failed .MissingVerifier, s0, false⟩
  else
    match ex (code.getD "") ((getItem s0 "code_verifier").getD "") with
    | .error msg => ⟨.Failed (.TokenExchangeError msg), s0, true⟩
    | .success tok rt =>
      match fu tok with
      | .httpError => ⟨.Failed .IdentityFetchError, s0, true⟩
      | .ok uname =>
        ⟨.Committed uname,
         removeItem (removeItem
             (commitRefresh (setItem s0 "gitlab_access_token" tok) rt)
             "oauth_state") "code_verifier",
         true⟩

/-- Ordered events of the login click handler on the home page. -/
inductive LoginEvent where
  | storeWrite (key value : String)
  | buildAuthUrl
  | navigate
  deriving DecidableEq, Repr

structure LoginOutcome where
  events : List LoginEvent
  store : Store
  deriving Repr

/-- The loginWithGitLab handler of the home page: write the fresh
state and code verifier to the store, build the authorization URL,
then navigate to the provider.  The two generated random values are
parameters; the event list records the order of the side effects. -/
def loginWithGitLab (stateVal codeVerifier : String) (s0 : Store) :
    LoginOutcome :=
  ⟨[.storeWrite "oauth_state" stateVal,
    .storeWrite "code_verifier" codeVerifier,
    .buildAuthUrl,
    .navigate],
   setItem (setItem s0 "oauth_state" stateVal) "code_verifier" codeVerifier⟩

/-- logout of the home page: removes the two token keys and the two
flow-parameter keys, and nothing else. -/
def logoutHome (s : Store) : Store :=
  removeItem (removeItem (removeItem (removeItem s
    "gitlab_access_token") "gitlab_refresh_token") "oauth_state")
    "code_verifier"

/-- logout of the repos page: the four auth keys plus selected_repo. -/
def logoutRepos (s : Store) : Store :=
  removeItem (logoutHome s) "selected_repo"

/-- logout of the dashboard page: same removals as the repos page. -/
def logoutDashboard (s : Store) : Store :=
  removeItem (logoutHome s) "selected_repo"

/-- logout of the callback page: same removals as the repos page. -/
def logoutCallback (s : Store) : Store :=
  removeItem (logoutHome s) "selected_repo"

/-- Outcome of the identity check the home page runs on mount:
an ok profile, a non-ok HTTP response, or a thrown network error. -/
inductive IdentityCheck where
  | ok (username : String)
  | httpError
  | threw
  deriving DecidableEq, Repr

structure HomeMountOutcome where
  store : Store
  isLoggedIn : Bool
  deriving DecidableEq, Repr

/-- The home page onMount body: with a stored access token, verify it
by fetching the user profile.  A non-ok response removes both token
keys; a thrown fetch is only logged, leaving the store untouched and
the user treated as logged out. -/
def homeOnMount (check : String → IdentityCheck) (s0 : Store) :
    HomeMountOutcome :=
  if strFalsy (getItem s0 "gitlab_access_token") then ⟨s0, false⟩
  else
    match check ((getItem s0 "gitlab_access_token").getD "") with
    | .ok _ => ⟨s0, true⟩
    | .httpError =>
        ⟨removeItem (removeItem s0 "gitlab_access_token")
          "gitlab_refresh_token", false⟩
    | .threw => ⟨s0, false⟩

/-- The four session-store keys written by the auth core. -/
def coreKeys : List String :=
  ["oauth_state", "code_verifier", "gitlab_access_token",
   "gitlab_refresh_token"]

/-- A token endpoint that rejects every exchange. -/
def exchangeRefuse : String → String → TokenResponse :=
  fun _ _ => .error "invalid_grant"

/-- A token endpoint that issues access token T and refresh token R. -/
def exchangeIssueT : String → String → TokenResponse :=
  fun _ _ => .success "T" (some "R")

/-- A token endpoint that issues access token T and no refresh token. -/
def exchangeIssueTOnly : String → String → TokenResponse :=
  fun _ _ => .success "T" none

/-- A user endpoint that accepts every bearer token. -/
def fetchUserAlice : String → UserResponse := fun _ => .ok "alice"

/-- A user endpoint that rejects every bearer token. -/
def fetchUserDeny : String → UserResponse := fun _ => .httpError

/-- An identity check that returns a non-ok HTTP response. -/
def checkDeny : String → IdentityCheck := fun _ => .httpError

/-- An identity check whose request throws before any response. -/
def checkThrew : String → IdentityCheck := fun _ => .threw

theorem getItem_removeItem_self (s : Store) (k : String) :
    getItem (removeItem s k) k = none := by
  induction s with
  | nil => rfl
  | cons p rest ih =>
    obtain ⟨k0, v⟩ := p
    by_cases h : k0 = k
    · simp [removeItem, h, ih]
    · simp [removeItem, getItem, h, ih]

theorem getItem_removeItem_ne (s : Store) (k q : String) (h : q ≠ k) :
    getItem (removeItem s k) q = getItem s q := by
  induction s with
  | nil => rfl
  | cons p rest ih =>
    obtain ⟨k0, v⟩ := p
    by_cases h0 : k0 = k
    · subst h0
      simp [removeItem, getItem, Ne.symm h, ih]
    · by_cases h1 : k0 = q
      · simp [removeItem, getItem, h, h0, h1, ih]
      · simp [removeItem, getItem, h, h0, h1, ih]

theorem getItem_setItem_self (s : Store) (k v : String) :
    getItem (setItem s k v) k = some v := by
  simp [setItem, getItem]

theorem getItem_setItem_ne (s : Store) (k v q : String) (h : q ≠ k) :
    getItem (setItem s k v) q = getItem s q := by
  simp [setItem, getItem, Ne.symm h, getItem_removeItem_ne s k q h]

theorem removeItem_eq_self (s : Store) (k : String)
    (h : getItem s k = none) : removeItem s k = s := by
  induction s with
  | nil => rfl
  | cons p rest ih =>
    obtain ⟨k0, v⟩ := p
    by_cases h0 : k0 = k
    · simp [getItem, h0] at h
    · simp [getItem, h0] at h
      simp [removeItem, h0, ih h]

theorem getItem_commitRefresh_ne (s : Store) (rt : Option String)
    (q : String) (h : q ≠ "gitlab_refresh_token") :
    getItem (commitRefresh s rt) q = getItem s q := by
  cases rt with
  | none => rfl
  | some r =>
    by_cases hr : r = ""
    · simp [commitRefresh, hr]
    · simp [commitRefresh, hr,
        getItem_setItem_ne s "gitlab_refresh_token" r q h]

theorem getItem_commitRefresh_some (s : Store) (r : String)
    (hr : r ≠ "") :
    getItem (commitRefresh s (some r)) "gitlab_refresh_token" = some r := by
  simp [commitRefresh, hr, getItem_setItem_self]

/-- Every run of the callback either fails with the store untouched, or
commits, in which case the final store is the initial one with the
access token written, the refresh token conditionally written, and the
two flow parameters removed. -/
theorem callbackRun_dichotomy (ex : String → String → TokenResponse)
    (fu : String → UserResponse) (code stateParam : Option String)
    (s0 : Store) :
    ((callbackRun ex fu code stateParam s0).store = s0 ∧
      ∃ r, (callbackRun ex fu code stateParam s0).result = .Failed r) ∨
    (∃ u tok rt,
      (callbackRun ex fu code stateParam s0).result = .Committed u ∧
      (callbackRun ex fu code stateParam s0).store =
        removeItem (removeItem
          (commitRefresh (setItem s0 "gitlab_access_token" tok) rt)
          "oauth_state") "code_verifier") := by
  unfold callbackRun
  split
  · exact Or.inl ⟨rfl, _, rfl⟩
  · split
    · exact Or.inl ⟨rfl, _, rfl⟩
    · split
      · exact Or.inl ⟨rfl, _, rfl⟩
      · split
        · exact Or.inl ⟨rfl, _, rfl⟩
        · split
          · exact Or.inl ⟨rfl, _, rfl⟩
          · exact Or.inr ⟨_, _, _, rfl, rfl⟩

/-- Under matching state and a present verifier, a provider error at the
token endpoint terminates the run with that error, the store untouched,
one exchange attempted. -/
theorem callbackRun_validated_exchange_error
    (ex : String → String → TokenResponse) (fu : String → UserResponse)
    (c st v m : String) (s0 : Store)
    (hc : c ≠ "") (hst : st ≠ "")
    (hstored : getItem s0 "oauth_state" = some st)
    (hcv : getItem s0 "code_verifier" = some v) (hv : v ≠ "")
    (hex : ex c v = .error m) :
    callbackRun ex fu (some c) (some st) s0 =
      ⟨.Failed (.TokenExchangeError m), s0, true⟩ := by
  unfold callbackRun
  split
  · rename_i hcond
    exact absurd hcond (by simp [strFalsy, hc, hst])
  · split
    · rename_i hcond
      exact absurd hcond (by simp [strFalsy, hstored, hst])
    · split
      · rename_i hcond
        exact absurd hcond (by simp [strFalsy, hcv, hv])
      · rw [hcv]
        simp [hex]

/-- Under matching state and a present verifier, a successful exchange
followed by a rejected identity fetch terminates the run with
IdentityFetchError and the store untouched. -/
theorem callbackRun_validated_fetch_error
    (ex : String → String → TokenResponse) (fu : String → UserResponse)
    (c st v T : String) (rt : Option String) (s0 : Store)
    (hc : c ≠ "") (hst : st ≠ "")
    (hstored : getItem s0 "oauth_state" = some st)
    (hcv : getItem s0 "code_verifier" = some v) (hv : v ≠ "")
    (hex : ex c v = .success T rt) (hfu : fu T = .httpError) :
    callbackRun ex fu (some c) (some st) s0 =
      ⟨.Failed .IdentityFetchError, s0, true⟩ := by
  unfold callbackRun
  split
  · rename_i hcond
    exact absurd hcond (by simp [strFalsy, hc, hst])
  · split
    · rename_i hcond
      exact absurd hcond (by simp [strFalsy, hstored, hst])
    · split
      · rename_i hcond
        exact absurd hcond (by simp [strFalsy, hcv, hv])
      · rw [hcv]
        simp [hex, hfu]

/-- Under matching state and a present verifier, a successful exchange
and an ok identity fetch commit: the access token is written, the
refresh token conditionally written, the flow parameters removed. -/
theorem callbackRun_validated_commit
    (ex : String → String → TokenResponse) (fu : String → UserResponse)
    (c st v T u : String) (rt : Option String) (s0 : Store)
    (hc : c ≠ "") (hst : st ≠ "")
    (hstored : getItem s0 "oauth_state" = some st)
    (hcv : getItem s0 "code_verifier" = some v) (hv : v ≠ "")
    (hex : ex c v = .success T rt) (hfu : fu T = .ok u) :
    callbackRun ex fu (some c) (some st) s0 =
      ⟨.Committed u,
       removeItem (removeItem
           (commitRefresh (setItem s0 "gitlab_access_token" T) rt)
           "oauth_state") "code_verifier",
       true⟩ := by
  unfold callbackRun
  split
  · rename_i hcond
    exact absurd hcond (by simp [strFalsy, hc, hst])
  · split
    · rename_i hcond
      exact absurd hcond (by simp [strFalsy, hstored, hst])
    · split
      · rename_i hcond
        exact absurd hcond (by simp [strFalsy, hcv, hv])
      · rw [hcv]
        simp [hex, hfu]

/-- After the home logout all four auth keys read as absent. -/
theorem logoutHome_core_none (s : Store) :
    getItem (logoutHome s) "gitlab_access_token" = none ∧
    getItem (logoutHome s) "gitlab_refresh_token" = none ∧
    getItem (logoutHome s) "oauth_state" = none ∧
    getItem (logoutHome s) "code_verifier" = none := by
  unfold logoutHome
  refine ⟨?_, ?_, ?_, ?_⟩
  · rw [getItem_removeItem_ne _ _ _ (by decide),
        getItem_removeItem_ne _ _ _ (by decide),
        getItem_removeItem_ne _ _ _ (by decide),
        getItem_removeItem_self]
  · rw [getItem_removeItem_ne _ _ _ (by decide),
        getItem_removeItem_ne _ _ _ (by decide),
        getItem_removeItem_self]
  · rw [getItem_removeItem_ne _ _ _ (by decide),
        getItem_removeItem_self]
  · rw [getItem_removeItem_self]

theorem logoutHome_eq_self_of_core_none (s : Store)
    (h1 : getItem s "gitlab_access_token" = none)
    (h2 : getItem s "gitlab_refresh_token" = none)
    (h3 : getItem s "oauth_state" = none)
    (h4 : getItem s "code_verifier" = none) :
    logoutHome s = s := by
  unfold logoutHome
  rw [removeItem_eq_self _ _ h1, removeItem_eq_self _ _ h2,
      removeItem_eq_self _ _ h3, removeItem_eq_self _ _ h4]

/-- C1: in the callback handler, for every stored-state option and every
received state, a stored oauth_state that is absent or different from
the received state terminates the run with Failed StateMismatch and no
token-exchange request; a stored oauth_state equal to the received
state passes validation (the run never ends in StateMismatch) and, with
a stored code verifier present, the exchange is issued. -/
theorem c1_state_validation (ex : String → String → TokenResponse)
    (fu : String → UserResponse) (c st : String) (s0 : Store)
    (hc : c ≠ "") (hst : st ≠ "") :
    (getItem s0 "oauth_state" ≠ some st →
      (callbackRun ex fu (some c) (some st) s0).result =
        .Failed .StateMismatch ∧
      (callbackRun ex fu (some c) (some st) s0).exchangeAttempted =
        false) ∧
    (getItem s0 "oauth_state" = some st →
      (callbackRun ex fu (some c) (some st) s0).result ≠
        .Failed .StateMismatch ∧
      (∀ v, getItem s0 "code_verifier" = some v → v ≠ "" →
        (callbackRun ex fu (some c) (some st) s0).exchangeAttempted =
          true)) := by
  constructor
  · intro hne
    unfold callbackRun
    have hcond : strFalsy (getItem s0 "oauth_state") ∨
        some ((some st : Option String).getD "") ≠
          getItem s0 "oauth_state" :=
      Or.inr (by simpa using Ne.symm hne)
    rw [if_neg (by simp [strFalsy, hc, hst]), if_pos hcond]
    exact ⟨rfl, rfl⟩
  · intro hstored
    constructor
    · unfold callbackRun
      split
      · simp
      · split
        · rename_i hcond
          exact absurd hcond (by simp [strFalsy, hstored, hst])
        · split
          · simp
          · split
            · simp
            · split
              · simp
              · simp
    · intro v hcv hv
      cases hex : ex c v with
      | error m =>
        rw [callbackRun_validated_exchange_error ex fu c st v m s0
          hc hst hstored hcv hv hex]
      | success T rt =>
        cases hfu : fu T with
        | ok u =>
          rw [callbackRun_validated_commit ex fu c st v T u rt s0
            hc hst hstored hcv hv hex hfu]
        | httpError =>
          rw [callbackRun_validated_fetch_error ex fu c st v T rt s0
            hc hst hstored hcv hv hex hfu]

/-- C1 witness: with stored state X and received state S the run fails
with StateMismatch and no exchange; with stored state S it issues the
exchange. -/
theorem c1_state_validation_witness :
    (callbackRun exchangeRefuse fetchUserDeny (some "C") (some "S")
      [("oauth_state", "X"), ("code_verifier", "V")]).result =
        .Failed .StateMismatch ∧
    (callbackRun exchangeRefuse fetchUserDeny (some "C") (some "S")
      [("oauth_state", "X"), ("code_verifier", "V")]).exchangeAttempted =
        false ∧
    (callbackRun exchangeRefuse fetchUserDeny (some "C") (some "S")
      [("oauth_state", "S"), ("code_verifier", "V")]).exchangeAttempted =
        true := by
  have h1 := c1_state_validation exchangeRefuse fetchUserDeny "C" "S"
    [("oauth_state", "X"), ("code_verifier", "V")] (by decide) (by decide)
  have h2 := c1_state_validation exchangeRefuse fetchUserDeny "C" "S"
    [("oauth_state", "S"), ("code_verifier", "V")] (by decide) (by decide)
  obtain ⟨ha, hb⟩ := h1.1 (by decide)
  exact ⟨ha, hb, (h2.2 (by decide)).2 "V" (by decide) (by decide)⟩

/-- C3: a provider error at the token endpoint ends the run in
Failed TokenExchangeError carrying the provider message, and with no
prior credential in the store a read of the access token still returns
absent afterwards. -/
theorem c3_token_exchange_error (ex : String → String → TokenResponse)
    (fu : String → UserResponse) (c st v m : String) (s0 : Store)
    (hc : c ≠ "") (hst : st ≠ "")
    (hstored : getItem s0 "oauth_state" = some st)
    (hcv : getItem s0 "code_verifier" = some v) (hv : v ≠ "")
    (hex : ex c v = .error m)
    (hinit : getItem s0 "gitlab_access_token" = none) :
    (callbackRun ex fu (some c) (some st) s0).result =
      .Failed (.TokenExchangeError m) ∧
    getItem (callbackRun ex fu (some c) (some st) s0).store
      "gitlab_access_token" = none := by
  rw [callbackRun_validated_exchange_error ex fu c st v m s0
    hc hst hstored hcv hv hex]
  exact ⟨rfl, hinit⟩

/-- C3 witness: a token endpoint answering invalid_grant on concrete
flow parameters leaves the credential absent. -/
theorem c3_token_exchange_error_witness :
    (callbackRun exchangeRefuse fetchUserAlice (some "C") (some "S")
      [("oauth_state", "S"), ("code_verifier", "V")]).result =
        .Failed (.TokenExchangeError "invalid_grant") ∧
    getItem (callbackRun exchangeRefuse fetchUserAlice (some "C")
      (some "S") [("oauth_state", "S"), ("code_verifier", "V")]).store
      "gitlab_access_token" = none := by
  exact c3_token_exchange_error exchangeRefuse fetchUserAlice "C" "S"
    "V" "invalid_grant" [("oauth_state", "S"), ("code_verifier", "V")]
    (by decide) (by decide) (by decide) (by decide) (by decide) rfl
    (by decide)

/-- C4: a successful exchange followed by a non-ok identity fetch ends
the run in Failed IdentityFetchError with the session store exactly as
it was before the run, so the freshly obtained access token is never
committed. -/
theorem c4_identity_fetch_error (ex : String → String → TokenResponse)
    (fu : String → UserResponse) (c st v T : String) (rt : Option String)
    (s0 : Store) (hc : c ≠ "") (hst : st ≠ "")
    (hstored : getItem s0 "oauth_state" = some st)
    (hcv : getItem s0 "code_verifier" = some v) (hv : v ≠ "")
    (hex : ex c v = .success T rt) (hfu : fu T = .httpError) :
    (callbackRun ex fu (some c) (some st) s0).result =
      .Failed .IdentityFetchError ∧
    (callbackRun ex fu (some c) (some st) s0).store = s0 := by
  rw [callbackRun_validated_fetch_error ex fu c st v T rt s0
    hc hst hstored hcv hv hex hfu]
  exact ⟨rfl, rfl⟩

/-- C4 witness: token issued but user endpoint answering 401 on
concrete flow parameters leaves the store unchanged. -/
theorem c4_identity_fetch_error_witness :
    (callbackRun exchangeIssueT fetchUserDeny (some "C") (some "S")
      [("oauth_state", "S"), ("code_verifier", "V")]).result =
        .Failed .IdentityFetchError ∧
    (callbackRun exchangeIssueT fetchUserDeny (some "C") (some "S")
      [("oauth_state", "S"), ("code_verifier", "V")]).store =
      [("oauth_state", "S"), ("code_verifier", "V")] := by
  exact c4_identity_fetch_error exchangeIssueT fetchUserDeny "C" "S"
    "V" "T" (some "R") [("oauth_state", "S"), ("code_verifier", "V")]
    (by decide) (by decide) (by decide) (by decide) (by decide) rfl rfl

/-- C5: with valid flow parameters, a token endpoint answering with
access token T and an ok identity fetch, the run commits, a read of
the stored access token returns T, and a nonempty refresh token in the
response is stored as well. -/
theorem c5_commit_stores_token (ex : String → String → TokenResponse)
    (fu : String → UserResponse) (c st v T u : String)
    (rt : Option String) (s0 : Store) (hc : c ≠ "") (hst : st ≠ "")
    (hstored : getItem s0 "oauth_state" = some st)
    (hcv : getItem s0 "code_verifier" = some v) (hv : v ≠ "")
    (hex : ex c v = .success T rt) (hfu : fu T = .ok u) :
    (callbackRun ex fu (some c) (some st) s0).result = .Committed u ∧
    getItem (callbackRun ex fu (some c) (some st) s0).store
      "gitlab_access_token" = some T ∧
    (∀ r, rt = some r → r ≠ "" →
      getItem (callbackRun ex fu (some c) (some st) s0).store
        "gitlab_refresh_token" = some r) := by
  rw [callbackRun_validated_commit ex fu c st v T u rt s0
    hc hst hstored hcv hv hex hfu]
  refine ⟨rfl, ?_, ?_⟩
  · rw [getItem_removeItem_ne _ _ _ (by decide),
        getItem_removeItem_ne _ _ _ (by decide),
        getItem_commitRefresh_ne _ _ _ (by decide),
        getItem_setItem_self]
  · intro r hr hrne
    subst hr
    rw [getItem_removeItem_ne _ _ _ (by decide),
        getItem_removeItem_ne _ _ _ (by decide),
        getItem_commitRefresh_some _ _ hrne]

/-- C5 witness: concrete happy path storing access token T and refresh
token R. -/
theorem c5_commit_stores_token_witness :
    (callbackRun exchangeIssueT fetchUserAlice (some "C") (some "S")
      [("oauth_state", "S"), ("code_verifier", "V")]).result =
        .Committed "alice" ∧
    getItem (callbackRun exchangeIssueT fetchUserAlice (some "C")
      (some "S") [("oauth_state", "S"), ("code_verifier", "V")]).store
      "gitlab_access_token" = some "T" ∧
    getItem (callbackRun exchangeIssueT fetchUserAlice (some "C")
      (some "S") [("oauth_state", "S"), ("code_verifier", "V")]).store
      "gitlab_refresh_token" = some "R" := by
  have h := c5_commit_stores_token exchangeIssueT fetchUserAlice "C"
    "S" "V" "T" "alice" (some "R")
    [("oauth_state", "S"), ("code_verifier", "V")]
    (by decide) (by decide) (by decide) (by decide) (by decide) rfl rfl
  exact ⟨h.1, h.2.1, h.2.2 "R" rfl (by decide)⟩

/-- C2 counterexample: a callback run that ends in Failed StateMismatch
terminates with oauth_state still present in the session store, so
cleanup of the flow parameters is not unconditional on the outcome. -/
theorem c2_cleanup_counterexample :
    (callbackRun exchangeRefuse fetchUserDeny (some "C") (some "B")
      [("oauth_state", "A"), ("code_verifier", "V")]).result =
        .Failed .StateMismatch ∧
    getItem (callbackRun exchangeRefuse fetchUserDeny (some "C")
      (some "B") [("oauth_state", "A"), ("code_verifier", "V")]).store
      "oauth_state" = some "A" ∧
    getItem (callbackRun exchangeRefuse fetchUserDeny (some "C")
      (some "B") [("oauth_state", "A"), ("code_verifier", "V")]).store
      "code_verifier" = some "V" := by
  refine ⟨?_, ?_, ?_⟩ <;> decide

/-- C2 amended: the callback removes oauth_state and code_verifier
exactly on runs that end Committed; on every run that ends Failed the
session store is left unchanged, so the stored flow parameters are not
cleared on failure. -/
theorem c2_cleanup_amended (ex : String → String → TokenResponse)
    (fu : String → UserResponse) (code stateParam : Option String)
    (s0 : Store) :
    (∀ u, (callbackRun ex fu code stateParam s0).result =
        .Committed u →
      getItem (callbackRun ex fu code stateParam s0).store
        "oauth_state" = none ∧
      getItem (callbackRun ex fu code stateParam s0).store
        "code_verifier" = none) ∧
    ((∃ r, (callbackRun ex fu code stateParam s0).result = .Failed r) →
      (callbackRun ex fu code stateParam s0).store = s0) := by
  rcases callbackRun_dichotomy ex fu code stateParam s0 with
    ⟨hs, r, hr⟩ | ⟨u, tok, rt, hr, hs⟩
  · constructor
    · intro u hu
      rw [hr] at hu
      simp at hu
    · intro _
      exact hs
  · constructor
    · intro u0 _
      rw [hs]
      constructor
      · rw [getItem_removeItem_ne _ _ _ (by decide),
            getItem_removeItem_self]
      · rw [getItem_removeItem_self]
    · rintro ⟨r, hrr⟩
      rw [hr] at hrr
      simp at hrr

/-- C2 amended witness: on a concrete committed run both flow
parameters are absent afterwards, and on a concrete failed run the
store is unchanged. -/
theorem c2_cleanup_amended_witness :
    (getItem (callbackRun exchangeIssueT fetchUserAlice (some "C")
      (some "S") [("oauth_state", "S"), ("code_verifier", "V")]).store
      "oauth_state" = none ∧
    getItem (callbackRun exchangeIssueT fetchUserAlice (some "C")
      (some "S") [("oauth_state", "S"), ("code_verifier", "V")]).store
      "code_verifier" = none) ∧
    (callbackRun exchangeRefuse fetchUserDeny (some "C") (some "B")
      [("oauth_state", "A"), ("code_verifier", "V")]).store =
      [("oauth_state", "A"), ("code_verifier", "V")] := by
  have h1 := c2_cleanup_amended exchangeIssueT fetchUserAlice
    (some "C") (some "S") [("oauth_state", "S"), ("code_verifier", "V")]
  have h2 := c2_cleanup_amended exchangeRefuse fetchUserDeny
    (some "C") (some "B") [("oauth_state", "A"), ("code_verifier", "V")]
  exact ⟨h1.1 "alice" (by decide),
         h2.2 ⟨.StateMismatch, by decide⟩⟩

theorem logoutRepos_getItem_ne (s : Store) (k : String)
    (h : k ≠ "selected_repo") :
    getItem (logoutRepos s) k = getItem (logoutHome s) k := by
  unfold logoutRepos
  exact getItem_removeItem_ne _ _ _ h

theorem logoutDashboard_getItem_ne (s : Store) (k : String)
    (h : k ≠ "selected_repo") :
    getItem (logoutDashboard s) k = getItem (logoutHome s) k := by
  unfold logoutDashboard
  exact getItem_removeItem_ne _ _ _ h

theorem logoutCallback_getItem_ne (s : Store) (k : String)
    (h : k ≠ "selected_repo") :
    getItem (logoutCallback s) k = getItem (logoutHome s) k := by
  unfold logoutCallback
  exact getItem_removeItem_ne _ _ _ h

/-- Every logout variant clears every one of the four auth keys. -/
theorem logoutAll_core_none (s : Store) (k : String)
    (hk : k ∈ coreKeys) :
    getItem (logoutHome s) k = none ∧
    getItem (logoutRepos s) k = none ∧
    getItem (logoutDashboard s) k = none ∧
    getItem (logoutCallback s) k = none := by
  have hsel : k ≠ "selected_repo" := by
    fin_cases hk <;> decide
  have hh : getItem (logoutHome s) k = none := by
    have h := logoutHome_core_none s
    fin_cases hk
    · exact h.2.2.1
    · exact h.2.2.2
    · exact h.1
    · exact h.2.1
  rw [logoutRepos_getItem_ne s k hsel,
      logoutDashboard_getItem_ne s k hsel,
      logoutCallback_getItem_ne s k hsel]
  exact ⟨hh, hh, hh, hh⟩

/-- C6 counterexample: first, a committed callback run stores the
credential under the key gitlab_access_token, while a read of the key
access_token named by the claim returns nothing, so the persisted
layout does not consist of the claimed key names; second, a callback
run that ends in a Failed state leaves oauth_state and code_verifier
in the store, so the first two keys are not cleared on flow failure. -/
theorem c6_layout_counterexample :
    ((callbackRun exchangeIssueT fetchUserAlice (some "C") (some "S")
      [("oauth_state", "S"), ("code_verifier", "V")]).result =
        .Committed "alice" ∧
    getItem (callbackRun exchangeIssueT fetchUserAlice (some "C")
      (some "S") [("oauth_state", "S"), ("code_verifier", "V")]).store
      "access_token" = none ∧
    getItem (callbackRun exchangeIssueT fetchUserAlice (some "C")
      (some "S") [("oauth_state", "S"), ("code_verifier", "V")]).store
      "gitlab_access_token" = some "T") ∧
    ((callbackRun exchangeIssueT fetchUserAlice (some "C") (some "Q")
      [("oauth_state", "Z"), ("code_verifier", "W")]).result =
        .Failed .StateMismatch ∧
    getItem (callbackRun exchangeIssueT fetchUserAlice (some "C")
      (some "Q") [("oauth_state", "Z"), ("code_verifier", "W")]).store
      "oauth_state" = some "Z" ∧
    getItem (callbackRun exchangeIssueT fetchUserAlice (some "C")
      (some "Q") [("oauth_state", "Z"), ("code_verifier", "W")]).store
      "code_verifier" = some "W") := by
  refine ⟨⟨?_, ?_, ?_⟩, ?_, ?_, ?_⟩ <;> decide

/-- C6 amended: the keys the auth core writes are exactly oauth_state,
code_verifier, gitlab_access_token and gitlab_refresh_token (login
initiation and the callback change no key outside this set); every
logout operation clears all four together; the first two are the ones
cleared individually on successful flow completion; and a callback run
that ends in a Failed state leaves the store unchanged, so they are
not cleared on failure. -/
theorem c6_layout_amended :
    (∀ (s : Store) (sv cv k : String),
      getItem (loginWithGitLab sv cv s).store k ≠ getItem s k →
      k ∈ coreKeys) ∧
    (∀ (ex : String → String → TokenResponse)
       (fu : String → UserResponse) (code stateParam : Option String)
       (s : Store) (k : String),
      getItem (callbackRun ex fu code stateParam s).store k ≠
        getItem s k →
      k ∈ coreKeys) ∧
    (∀ (s : Store) (k : String), k ∈ coreKeys →
      getItem (logoutHome s) k = none ∧
      getItem (logoutRepos s) k = none ∧
      getItem (logoutDashboard s) k = none ∧
      getItem (logoutCallback s) k = none) ∧
    (∀ (ex : String → String → TokenResponse)
       (fu : String → UserResponse) (code stateParam : Option String)
       (s : Store) (u : String),
      (callbackRun ex fu code stateParam s).result = .Committed u →
      getItem (callbackRun ex fu code stateParam s).store
        "oauth_state" = none ∧
      getItem (callbackRun ex fu code stateParam s).store
        "code_verifier" = none) ∧
    (∀ (ex : String → String → TokenResponse)
       (fu : String → UserResponse) (code stateParam : Option String)
       (s : Store) (r : FailReason),
      (callbackRun ex fu code stateParam s).result = .Failed r →
      (callbackRun ex fu code stateParam s).store = s) := by
  refine ⟨?_, ?_, ?_, ?_, ?_⟩
  · intro s sv cv k h
    by_contra hk
    simp only [coreKeys, List.mem_cons, List.not_mem_nil, or_false] at hk
    push_neg at hk
    obtain ⟨h1, h2, _, _⟩ := hk
    exact h (by
      show getItem (setItem (setItem s "oauth_state" sv)
        "code_verifier" cv) k = getItem s k
      rw [getItem_setItem_ne _ _ _ _ h2, getItem_setItem_ne _ _ _ _ h1])
  · intro ex fu code stateParam s k h
    by_contra hk
    simp only [coreKeys, List.mem_cons, List.not_mem_nil, or_false] at hk
    push_neg at hk
    obtain ⟨h1, h2, h3, h4⟩ := hk
    rcases callbackRun_dichotomy ex fu code stateParam s with
      ⟨hs, _, _⟩ | ⟨u, tok, rt, _, hs⟩
    · exact h (by rw [hs])
    · exact h (by
        rw [hs, getItem_removeItem_ne _ _ _ h2,
            getItem_removeItem_ne _ _ _ h1,
            getItem_commitRefresh_ne _ _ _ h4,
            getItem_setItem_ne _ _ _ _ h3])
  · intro s k hk
    exact logoutAll_core_none s k hk
  · intro ex fu code stateParam s u hu
    rcases callbackRun_dichotomy ex fu code stateParam s with
      ⟨_, r, hr⟩ | ⟨u0, tok, rt, _, hs⟩
    · rw [hr] at hu
      simp at hu
    · rw [hs]
      constructor
      · rw [getItem_removeItem_ne _ _ _ (by decide),
            getItem_removeItem_self]
      · rw [getItem_removeItem_self]
  · intro ex fu code stateParam s r hr
    rcases callbackRun_dichotomy ex fu code stateParam s with
      ⟨hs, _, _⟩ | ⟨u, tok, rt, hu, _⟩
    · exact hs
    · rw [hu] at hr
      simp at hr

/-- C6 amended witness: concrete instances of each conjunct. -/
theorem c6_layout_amended_witness :
    getItem (logoutRepos [("gitlab_access_token", "T"),
      ("selected_repo", "r1")]) "gitlab_access_token" = none ∧
    getItem (callbackRun exchangeIssueT fetchUserAlice (some "C")
      (some "S") [("oauth_state", "S"), ("code_verifier", "V")]).store
      "oauth_state" = none ∧
    ("oauth_state" ∈ coreKeys) ∧
    (callbackRun exchangeIssueT fetchUserAlice (some "C") (some "Q")
      [("oauth_state", "Z"), ("code_verifier", "W")]).store =
      [("oauth_state", "Z"), ("code_verifier", "W")] := by
  have h := c6_layout_amended
  refine ⟨(h.2.2.1 [("gitlab_access_token", "T"),
    ("selected_repo", "r1")] "gitlab_access_token" (by decide)).2.1,
    ?_, ?_, ?_⟩
  · exact (h.2.2.2.1 exchangeIssueT fetchUserAlice (some "C") (some "S")
      [("oauth_state", "S"), ("code_verifier", "V")] "alice"
      (by decide)).1
  · exact h.1 [] "S" "V" "oauth_state" (by decide)
  · exact h.2.2.2.2 exchangeIssueT fetchUserAlice (some "C") (some "Q")
      [("oauth_state", "Z"), ("code_verifier", "W")] .StateMismatch
      (by decide)

/-- C7: in every execution of the login step, each store write of a
flow parameter occurs at a strictly earlier position in the event
sequence than both the building of the authorization URL and the
navigation to the provider. -/
theorem c7_writes_before_navigation (sv cv : String) (s0 : Store) :
    ∀ i k v, (loginWithGitLab sv cv s0).events.get? i =
      some (.storeWrite k v) →
    ∀ j, ((loginWithGitLab sv cv s0).events.get? j =
            some .buildAuthUrl ∨
          (loginWithGitLab sv cv s0).events.get? j = some .navigate) →
    i < j := by
  intro i k v hi j hj
  have hi2 : i = 0 ∨ i = 1 := by
    match i, hi with
    | 0, _ => exact Or.inl rfl
    | 1, _ => exact Or.inr rfl
    | 2, hi => exact absurd hi (by simp [loginWithGitLab])
    | 3, hi => exact absurd hi (by simp [loginWithGitLab])
    | n + 4, hi => exact absurd hi (by simp [loginWithGitLab, List.get?])
  have hj2 : j = 2 ∨ j = 3 := by
    match j, hj with
    | 0, hj =>
      rcases hj with h | h <;> exact absurd h (by simp [loginWithGitLab])
    | 1, hj =>
      rcases hj with h | h <;> exact absurd h (by simp [loginWithGitLab])
    | 2, _ => exact Or.inl rfl
    | 3, _ => exact Or.inr rfl
    | n + 4, hj =>
      rcases hj with h | h <;>
        exact absurd h (by simp [loginWithGitLab, List.get?])
  omega

/-- C7 witness: the first event is the oauth_state write and it
precedes the navigation event at position three. -/
theorem c7_writes_before_navigation_witness :
    (loginWithGitLab "S" "V" []).events.get? 0 =
      some (.storeWrite "oauth_state" "S") ∧ (0 : Nat) < 3 := by
  exact ⟨rfl, c7_writes_before_navigation "S" "V" [] 0 "oauth_state"
    "S" rfl 3 (Or.inr rfl)⟩

/-- C8: for every store, logout followed by a read of either token key
yields absent; logout of the empty store is the empty store (a no-op);
and logout is idempotent.  Both the home page logout and the repos
page logout are covered. -/
theorem c8_clear_then_read_absent :
    (∀ s : Store,
      getItem (logoutHome s) "gitlab_access_token" = none ∧
      getItem (logoutHome s) "gitlab_refresh_token" = none ∧
      getItem (logoutRepos s) "gitlab_access_token" = none ∧
      getItem (logoutRepos s) "gitlab_refresh_token" = none) ∧
    logoutHome [] = [] ∧
    logoutRepos [] = [] ∧
    (∀ s : Store, logoutHome (logoutHome s) = logoutHome s) ∧
    (∀ s : Store, logoutRepos (logoutRepos s) = logoutRepos s) := by
  refine ⟨?_, rfl, rfl, ?_, ?_⟩
  · intro s
    have h := logoutHome_core_none s
    refine ⟨h.1, h.2.1, ?_, ?_⟩
    · rw [logoutRepos_getItem_ne s _ (by decide)]
      exact h.1
    · rw [logoutRepos_getItem_ne s _ (by decide)]
      exact h.2.1
  · intro s
    have h := logoutHome_core_none s
    exact logoutHome_eq_self_of_core_none (logoutHome s)
      h.1 h.2.1 h.2.2.1 h.2.2.2
  · intro s
    show removeItem (logoutHome (removeItem (logoutHome s)
      "selected_repo")) "selected_repo" = logoutRepos s
    have h := logoutHome_core_none s
    have e : logoutHome (removeItem (logoutHome s) "selected_repo") =
        removeItem (logoutHome s) "selected_repo" := by
      refine logoutHome_eq_self_of_core_none _ ?_ ?_ ?_ ?_ <;>
        rw [getItem_removeItem_ne _ _ _ (by decide)]
      · exact h.1
      · exact h.2.1
      · exact h.2.2.1
      · exact h.2.2.2
    rw [e]
    exact removeItem_eq_self _ _ (getItem_removeItem_self _ _)

/-- C9: on home-page startup with a stored access token, a non-ok
identity response removes both token keys from the store, while a
thrown identity request leaves the store untouched and the page merely
reports logged out. -/
theorem c9_invalid_token_cleared_throw_kept
    (check : String → IdentityCheck) (s0 : Store) (t : String)
    (ht : getItem s0 "gitlab_access_token" = some t) (hne : t ≠ "") :
    (check t = .httpError →
      getItem (homeOnMount check s0).store "gitlab_access_token" =
        none ∧
      getItem (homeOnMount check s0).store "gitlab_refresh_token" =
        none ∧
      (homeOnMount check s0).isLoggedIn = false) ∧
    (check t = .threw →
      (homeOnMount check s0).store = s0 ∧
      (homeOnMount check s0).isLoggedIn = false) := by
  unfold homeOnMount
  rw [ht]
  rw [if_neg (by simp [strFalsy, hne])]
  simp only [Option.getD_some]
  constructor
  · intro hc
    rw [hc]
    refine ⟨?_, ?_, rfl⟩
    · rw [getItem_removeItem_ne _ _ _ (by decide),
          getItem_removeItem_self]
    · rw [getItem_removeItem_self]
  · intro hc
    rw [hc]
    exact ⟨rfl, rfl⟩

/-- C9 witness: with a concrete stored token, a denying identity check
clears both token keys while a throwing one leaves the store as it
was. -/
theorem c9_invalid_token_cleared_throw_kept_witness :
    getItem (homeOnMount checkDeny [("gitlab_access_token", "T"),
      ("gitlab_refresh_token", "R")]).store "gitlab_access_token" =
      none ∧
    (homeOnMount checkThrew [("gitlab_access_token", "T"),
      ("gitlab_refresh_token", "R")]).store =
      [("gitlab_access_token", "T"), ("gitlab_refresh_token", "R")] := by
  have h1 := c9_invalid_token_cleared_throw_kept checkDeny
    [("gitlab_access_token", "T"), ("gitlab_refresh_token", "R")] "T"
    (by decide) (by decide)
  have h2 := c9_invalid_token_cleared_throw_kept checkThrew
    [("gitlab_access_token", "T"), ("gitlab_refresh_token", "R")] "T"
    (by decide) (by decide)
  exact ⟨(h1.1 rfl).1, (h2.2 rfl).1⟩

/-- C10: for every store, the home-page logout leaves the value under
selected_repo exactly as it was while removing all four auth keys,
whereas the repos, dashboard and callback logouts remove selected_repo
as well. -/
theorem c10_selected_repo_survives_home_logout (s : Store) :
    getItem (logoutHome s) "selected_repo" =
      getItem s "selected_repo" ∧
    getItem (logoutHome s) "gitlab_access_token" = none ∧
    getItem (logoutHome s) "gitlab_refresh_token" = none ∧
    getItem (logoutHome s) "oauth_state" = none ∧
    getItem (logoutHome s) "code_verifier" = none ∧
    getItem (logoutRepos s) "selected_repo" = none ∧
    getItem (logoutDashboard s) "selected_repo" = none ∧
    getItem (logoutCallback s) "selected_repo" = none := by
  have h := logoutHome_core_none s
  refine ⟨?_, h.1, h.2.1, h.2.2.1, h.2.2.2, ?_, ?_, ?_⟩
  · show getItem (removeItem (removeItem (removeItem (removeItem s
      "gitlab_access_token") "gitlab_refresh_token") "oauth_state")
      "code_verifier") "selected_repo" = getItem s "selected_repo"
    rw [getItem_removeItem_ne _ _ _ (by decide),
        getItem_removeItem_ne _ _ _ (by decide),
        getItem_removeItem_ne _ _ _ (by decide),
        getItem_removeItem_ne _ _ _ (by decide)]
  · exact getItem_removeItem_self _ _
  · exact getItem_removeItem_self _ _
  · exact getItem_removeItem_self _ _
